import Mathlib

/-!
Shallow embedding of the booking/scheduling core of the AceHome server
(`src/server/index.js`) and proofs about the spec's claims.

Conventions:
* JS numbers that hold money or counters are modelled as `Int`
  (the endpoints only add, subtract, compare and take `Math.max`).
* Mongo documents become Lean structures; the subset of fields the
  modelled endpoints read or write is kept, with the source field names.
* Each HTTP endpoint becomes a pure function from the relevant slice of
  persistent state to `state × Except error result`: writes performed
  before an error return persist, exactly as the sequential `await`
  structure of the handlers does.
* Statuses and roles are plain strings, as in the Mongoose schemas
  (the `status` field has no enum constraint in the schema).
-/

namespace AceHome

/-- `Slot` document (schema in `src/server/index.js`): per
(service, date, time-window) capacity record. -/
structure Slot where
  booked_count : Int
  total_capacity : Int
  is_available : Bool
deriving Repr, DecidableEq

/-- The availability precondition test used by `POST /bookings`
(line 2405) and `PATCH /bookings/:id/reschedule` (line 3103):
`slot && slot.booked_count >= slot.total_capacity`. A missing slot
document means unconstrained capacity. -/
def slotFull : Option Slot → Bool
  | some s => s.booked_count ≥ s.total_capacity
  | none => false

/-- The reserve write of `POST /bookings` (lines 2484-2490) and the
new-slot side of reschedule (lines 3116-3122): increment
`booked_count`, and mark unavailable once full. No-op when no slot
document exists. -/
def slotReserve : Option Slot → Option Slot
  | some s =>
      let s' : Slot := { s with booked_count := s.booked_count + 1 }
      some (if s'.booked_count ≥ s'.total_capacity then { s' with is_available := false } else s')
  | none => none

/-- The release write of `PATCH /bookings/:id/cancel` (lines 3009-3013)
and the old-slot side of reschedule (lines 3086-3090): decrement
`booked_count` and mark available, but only when `booked_count > 0`. -/
def slotRelease : Option Slot → Option Slot
  | some s =>
      if s.booked_count > 0 then
        some { s with booked_count := s.booked_count - 1, is_available := true }
      else some s
  | none => none

/-- One capacity operation as performed by the endpoints: a reserve
request first runs the `slotFull` precondition and aborts (leaving the
slot untouched) when it fails; a release is unconditional. -/
inductive SlotOp where
  | reserve
  | release
deriving Repr, DecidableEq

/-- Effect of one slot operation on the stored slot document. -/
def slotStep (s : Option Slot) : SlotOp → Option Slot
  | .reserve => if slotFull s then s else slotReserve s
  | .release => slotRelease s

/-- Folding a sequence of reserve/release operations over the store. -/
def slotRun (s : Option Slot) (ops : List SlotOp) : Option Slot :=
  ops.foldl slotStep s

/-- The capacity invariant of the spec: `0 ≤ booked_count ≤ total_capacity`
(vacuous when no slot document exists). -/
def slotInv : Option Slot → Prop
  | some s => 0 ≤ s.booked_count ∧ s.booked_count ≤ s.total_capacity
  | none => True

instance : DecidablePred slotInv := by
  intro s
  cases s with
  | none => exact .isTrue trivial
  | some sl =>
      show Decidable (0 ≤ sl.booked_count ∧ sl.booked_count ≤ sl.total_capacity)
      infer_instance

instance {ε α : Type} [DecidableEq ε] [DecidableEq α] : DecidableEq (Except ε α)
  | .ok a, .ok b =>
      if h : a = b then .isTrue (by rw [h]) else .isFalse (by simp [h])
  | .error a, .error b =>
      if h : a = b then .isTrue (by rw [h]) else .isFalse (by simp [h])
  | .ok _, .error _ => .isFalse (by simp)
  | .error _, .ok _ => .isFalse (by simp)

/-- Customer profile slice read by `POST /bookings`. -/
structure Customer where
  wallet_balance : Int
  phone_verified : Bool
deriving Repr, DecidableEq

/-- `PromoCode` document (schema fields read by the promo endpoints).
`Option Int` fields model Mongo fields that may be absent/null. -/
structure PromoCode where
  usage_count : Int
  max_usage : Option Int
  min_order_value : Option Int
  valid_from : Option Int
  valid_until : Option Int
deriving Repr, DecidableEq

/-- `WalletTransaction` document slice: `amount` and `transaction_type`. -/
structure WalletTxn where
  amount : Int
  transaction_type : String
deriving Repr, DecidableEq

/-- The request body of `POST /bookings` (fields the handler reads).
`total_price` is the client-submitted total; `has_promo_code` is the
truthiness of `req.body.promo_code`. -/
structure CreateReq where
  base_price : Int
  addon_price : Int
  discount_amount : Int
  wallet_amount : Int
  total_price : Int
  payment_status : String
  payment_method : String
  has_promo_code : Bool
deriving Repr, DecidableEq

/-- The persistent-state slice touched by `POST /bookings`: the customer
profile, the slot matching (service, date, time window), the promo
document found for the submitted code (`none` when no code was sent or
none matches), and the wallet-transaction log. -/
structure CreateState where
  customer : Option Customer
  slot : Option Slot
  promo : Option PromoCode
  txns : List WalletTxn
deriving Repr, DecidableEq

/-- The booking document produced by `Booking.create` (pricing slice). -/
structure BookingRec where
  base_price : Int
  addon_price : Int
  discount_amount : Int
  wallet_amount : Int
  platform_fee : Int
  total_price : Int
  status : String
  payment_status : String
  payment_method : String
deriving Repr, DecidableEq

inductive CreateErr where
  | customer_not_found
  | phone_not_verified
  | slot_unavailable
  | insufficient_wallet_balance
  | invalid_wallet_amount
deriving Repr, DecidableEq

/-- Line 2420: `subtotalAfterDiscount = Math.max(0, basePrice + addonPrice - discountAmount)`. -/
def subtotalAfterDiscountOf (basePrice addonPrice discountAmount : Int) : Int :=
  max 0 (basePrice + addonPrice - discountAmount)

/-- Line 2421: `computedTotal = Math.max(0, subtotalAfterDiscount - walletAmount)`. -/
def computedTotalOf (basePrice addonPrice discountAmount walletAmount : Int) : Int :=
  max 0 (subtotalAfterDiscountOf basePrice addonPrice discountAmount - walletAmount)

/-- `POST /bookings` (lines 2352-2527). Checks run in source order:
customer lookup, `phone_verified`, slot availability, then (when a
wallet amount is used) the balance and subtotal caps; on success the
booking is created with the server-computed totals (overriding the
spread client body, line 2454), the wallet is debited with a `debit`
transaction appended, the slot `booked_count` incremented, and the
promo `usage_count` incremented when a code was referenced and found
(no `max_usage` check here). Writes happen only after all checks. -/
def createBooking (st : CreateState) (r : CreateReq) :
    CreateState × Except CreateErr BookingRec :=
  match st.customer with
  | none => (st, .error .customer_not_found)
  | some customerProfile =>
    if !customerProfile.phone_verified then (st, .error .phone_not_verified)
    else if slotFull st.slot then (st, .error .slot_unavailable)
    else
      let basePrice := r.base_price
      let addonPrice := r.addon_price
      let discountAmount := r.discount_amount
      let walletAmount := r.wallet_amount
      let platformFee : Int := 0
      let subtotalAfterDiscount := subtotalAfterDiscountOf basePrice addonPrice discountAmount
      let computedTotal := computedTotalOf basePrice addonPrice discountAmount walletAmount
      if walletAmount > 0 ∧ walletAmount > customerProfile.wallet_balance then
        (st, .error .insufficient_wallet_balance)
      else if walletAmount > 0 ∧ walletAmount > subtotalAfterDiscount then
        (st, .error .invalid_wallet_amount)
      else
        let booking : BookingRec :=
          { base_price := basePrice
            addon_price := addonPrice
            discount_amount := discountAmount
            wallet_amount := walletAmount
            platform_fee := platformFee
            total_price := computedTotal
            status := "pending"
            payment_status := r.payment_status
            payment_method := r.payment_method }
        let customer' :=
          if walletAmount > 0 then
            { customerProfile with
                wallet_balance := customerProfile.wallet_balance - walletAmount }
          else customerProfile
        let txns' :=
          if walletAmount > 0 then
            st.txns ++ [{ amount := walletAmount, transaction_type := "debit" }]
          else st.txns
        let booking' :=
          if walletAmount > 0 ∧ computedTotal = 0 then
            { booking with payment_status := "paid", payment_method := "wallet" }
          else booking
        let slot' := slotReserve st.slot
        let promo' :=
          if r.has_promo_code then
            st.promo.map fun p => { p with usage_count := p.usage_count + 1 }
          else st.promo
        ({ customer := some customer', slot := slot', promo := promo', txns := txns' },
         .ok booking')

inductive PromoErr where
  | invalid_code
  | expired
  | not_yet_valid
  | min_order_value
  | usage_limit_exceeded
deriving Repr, DecidableEq

/-- JS truthiness of an optional numeric field (`x &&` is false for
absent/null and for `0`). -/
def truthyInt : Option Int → Bool
  | some n => n ≠ 0
  | none => false

/-- `GET /promo/validate` (lines 3316-3360). `promo` is the document
found by `findOne({code, is_active: true})` (`none` covers both a
missing and an inactive code); `now` is the current time, dates as
integer timestamps. -/
def validatePromo (now : Int) (promo : Option PromoCode) (subtotal : Int) :
    Except PromoErr PromoCode :=
  match promo with
  | none => .error .invalid_code
  | some p =>
    if (p.valid_until.elim false fun u => u < now) then .error .expired
    else if (p.valid_from.elim false fun f => f > now) then .error .not_yet_valid
    else if subtotal < (p.min_order_value.getD 0) then .error .min_order_value
    else if truthyInt p.max_usage ∧ p.usage_count ≥ p.max_usage.getD 0 then
      .error .usage_limit_exceeded
    else .ok p

/-- `OTP` document: hashed code, expiry, attempt counter, resend stamp.
Times are integer timestamps (milliseconds). -/
structure OTPChallenge where
  code_hash : String
  expires_at : Int
  attempts : Int
  last_sent_at : Int
deriving Repr, DecidableEq

inductive OtpErr where
  | otp_rate_limited
  | otp_not_found
  | otp_expired
  | otp_attempts_exceeded
  | otp_invalid
deriving Repr, DecidableEq

/-- `POST /auth/request-otp` (lines 1422-1465): rate-limits resends
within 45s of `last_sent_at`, otherwise upserts a fresh challenge with
`attempts = 0` and a 5-minute expiry. `hash` abstracts
`sha256`; `code` is the generated 6-digit code. -/
def requestOtp (hash : String → String) (now : Int) (st : Option OTPChallenge)
    (code : String) : Option OTPChallenge × Except OtpErr Unit :=
  match st with
  | some existing =>
      if now - existing.last_sent_at < 45000 then (some existing, .error .otp_rate_limited)
      else
        (some { code_hash := hash code, expires_at := now + 5 * 60 * 1000,
                attempts := 0, last_sent_at := now }, .ok ())
  | none =>
      (some { code_hash := hash code, expires_at := now + 5 * 60 * 1000,
              attempts := 0, last_sent_at := now }, .ok ())

/-- `POST /auth/verify-otp` (lines 1469-1561), challenge-store part.
Checks run in source order: presence, expiry (`expires_at < now`),
attempt cap (`attempts >= 5`), hash comparison (incrementing `attempts`
on mismatch); on match the challenge is deleted (single use). -/
def verifyOtp (hash : String → String) (now : Int) (st : Option OTPChallenge)
    (code : String) : Option OTPChallenge × Except OtpErr Unit :=
  match st with
  | none => (none, .error .otp_not_found)
  | some otp =>
      if otp.expires_at < now then (some otp, .error .otp_expired)
      else if otp.attempts ≥ 5 then (some otp, .error .otp_attempts_exceeded)
      else if hash code ≠ otp.code_hash then
        (some { otp with attempts := otp.attempts + 1 }, .error .otp_invalid)
      else (none, .ok ())

/-- State of the challenge store after a sequence of verify attempts,
each a (time, submitted code) pair. -/
def verifyFold (hash : String → String) (st : Option OTPChallenge)
    (tries : List (Int × String)) : Option OTPChallenge :=
  tries.foldl (fun s t => (verifyOtp hash t.1 s t.2).1) st

/-- The `attempts ≤ 5` invariant on the challenge store. -/
def otpInv : Option OTPChallenge → Prop
  | some o => o.attempts ≤ 5
  | none => True

/-- Worker profile slice used by assignment (`Profile` schema fields). -/
structure Worker where
  id : Nat
  role : String
  is_available : Bool
  id_verified : Bool
  skills_verified : Bool
  background_check_status : String
  approval_status : String
  skills : List Nat
  location : String
  rating : Int
  experience_years : Int
  max_capacity : Int
  current_jobs : Int
deriving Repr, DecidableEq

/-- `Booking` document slice used by the lifecycle and payment
endpoints. `id` stands for the Mongo `_id`. -/
structure BDoc where
  id : Nat
  service_id : Nat
  employee_id : Option Nat
  status : String
  booking_date : Option Int
  booking_time : Option String
  customer_pincode : String
  total_price : Int
  payment_status : String
  payment_method : String
  assigned_at : Option Int
  accepted_at : Option Int
  reached_at : Option Int
  started_at : Option Int
  completed_at : Option Int
  cancelled_at : Option Int
  cancellation_reason : Option String
  cancelled_by : Option String
deriving Repr, DecidableEq

/-- Store slice for the lifecycle/assignment endpoints: the bookings
collection, the worker profiles, and (for cancel) the slot document
matching the cancelled booking's (service, date, time window) key. -/
structure SysState where
  bookings : List BDoc
  workers : List Worker
  slot : Option Slot
deriving Repr, DecidableEq

/-- `Booking.findById`. -/
def findBooking (st : SysState) (bid : Nat) : Option BDoc :=
  st.bookings.find? (fun b => b.id == bid)

/-- Persisting an updated booking document (`booking.save()` /
`findByIdAndUpdate`). -/
def saveBooking (bs : List BDoc) (b : BDoc) : List BDoc :=
  bs.map (fun x => if x.id == b.id then b else x)

/-- `Booking.countDocuments({employee_id, status: {$in: statuses}})`. -/
def countByStatus (bs : List BDoc) (wid : Nat) (statuses : List String) : Int :=
  ((bs.filter (fun b => b.employee_id == some wid && statuses.contains b.status)).length : Int)

/-- `Profile.findByIdAndUpdate(wid, { current_jobs: n })`. -/
def setCurrentJobs (ws : List Worker) (wid : Nat) (n : Int) : List Worker :=
  ws.map (fun w => if w.id == wid then { w with current_jobs := n } else w)

/-- The status set used by the assign and cancel handlers when
recomputing `current_jobs` (lines 2795-2798, 2863-2866, 3018-3021). -/
def activeTwo : List String := ["assigned", "in_progress"]

/-- The status set used by the complete and generic status handlers
when recomputing `current_jobs` (lines 2620-2623, 3525-3528). -/
def activeFour : List String := ["assigned", "accepted", "reached", "in_progress"]

inductive LifecycleErr where
  | not_found
  | invalid_status
  | cannot_cancel_completed
  | already_cancelled
deriving Repr, DecidableEq

/-- `POST /bookings/:id/accept` (lines 3363-3399): blocked only in the
terminal statuses; no `current_jobs` recompute here. -/
def acceptBooking (now : Int) (st : SysState) (bid : Nat) :
    SysState × Except LifecycleErr BDoc :=
  match findBooking st bid with
  | none => (st, .error .not_found)
  | some b =>
      if b.status = "cancelled" ∨ b.status = "completed" then (st, .error .invalid_status)
      else
        let b' := { b with status := "accepted", accepted_at := some now }
        ({ st with bookings := saveBooking st.bookings b' }, .ok b')

/-- `POST /bookings/:id/mark-reached` (lines 3401-3437). -/
def markReached (now : Int) (st : SysState) (bid : Nat) :
    SysState × Except LifecycleErr BDoc :=
  match findBooking st bid with
  | none => (st, .error .not_found)
  | some b =>
      if b.status = "cancelled" ∨ b.status = "completed" then (st, .error .invalid_status)
      else
        let b' := { b with status := "reached", reached_at := some now }
        ({ st with bookings := saveBooking st.bookings b' }, .ok b')

/-- `POST /bookings/:id/start-work` (lines 3439-3482). -/
def startWork (now : Int) (st : SysState) (bid : Nat) :
    SysState × Except LifecycleErr BDoc :=
  match findBooking st bid with
  | none => (st, .error .not_found)
  | some b =>
      if b.status = "cancelled" ∨ b.status = "completed" then (st, .error .invalid_status)
      else
        let b' := { b with status := "in_progress", started_at := some now }
        ({ st with bookings := saveBooking st.bookings b' }, .ok b')

/-- `POST /bookings/:id/complete` (lines 3484-3551): blocked only when
`cancelled`; COD bookings with pending payment are auto-marked paid;
the assignee's `current_jobs` is recomputed over `activeFour` AFTER
the booking is saved. -/
def completeBooking (now : Int) (st : SysState) (bid : Nat) :
    SysState × Except LifecycleErr BDoc :=
  match findBooking st bid with
  | none => (st, .error .not_found)
  | some b =>
      if b.status = "cancelled" then (st, .error .invalid_status)
      else
        let b1 := { b with status := "completed", completed_at := some now }
        let b' :=
          if b.payment_method = "cod" ∧ b.payment_status = "pending" then
            { b1 with payment_status := "paid" }
          else b1
        let bookings' := saveBooking st.bookings b'
        let workers' :=
          match b'.employee_id with
          | some wid => setCurrentJobs st.workers wid (countByStatus bookings' wid activeFour)
          | none => st.workers
        ({ st with bookings := bookings', workers := workers' }, .ok b')

/-- `PATCH /bookings/:id/cancel` (lines 2974-3031): terminal-status
guards, then the booking is cancelled in memory, the slot released,
and the assignee's `current_jobs` recomputed over `activeTwo` — note
the recompute queries the store BEFORE `booking.save()`, so it still
sees the booking's pre-cancel status. -/
def cancelBooking (now : Int) (st : SysState) (bid : Nat)
    (reason : Option String) (cancelled_by : Option String) :
    SysState × Except LifecycleErr BDoc :=
  match findBooking st bid with
  | none => (st, .error .not_found)
  | some b =>
      if b.status = "completed" then (st, .error .cannot_cancel_completed)
      else if b.status = "cancelled" then (st, .error .already_cancelled)
      else
        let b' := { b with
          status := "cancelled"
          cancelled_at := some now
          cancellation_reason := some (reason.getD "No reason provided")
          cancelled_by := some (cancelled_by.getD "customer") }
        let slot' :=
          if b.booking_date.isSome ∧ b.booking_time.isSome then slotRelease st.slot
          else st.slot
        let workers' :=
          match b.employee_id with
          | some wid => setCurrentJobs st.workers wid (countByStatus st.bookings wid activeTwo)
          | none => st.workers
        let bookings' := saveBooking st.bookings b'
        ({ bookings := bookings', workers := workers', slot := slot' }, .ok b')

/-- The `updateData` timestamp logic of `PATCH /bookings/:id/status`
(lines 2588-2597). -/
def statusUpdateData (now : Int) (b : BDoc) (status : String) : BDoc :=
  let b0 := { b with status := status }
  if status = "accepted" then { b0 with accepted_at := some now }
  else if status = "reached" then { b0 with reached_at := some now }
  else if status = "in_progress" then { b0 with started_at := some now }
  else if status = "completed" then { b0 with completed_at := some now }
  else b0

/-- `PATCH /bookings/:id/status` (lines 2570-2681): sets `status` to the
submitted value with NO guard on the current status, auto-pays COD on
completion, saves, then recomputes the assignee's `current_jobs` over
`activeFour`. -/
def updateStatus (now : Int) (st : SysState) (bid : Nat) (status : String) :
    SysState × Except LifecycleErr BDoc :=
  match findBooking st bid with
  | none => (st, .error .not_found)
  | some booking =>
      let b1 := statusUpdateData now booking status
      let b' :=
        if status = "completed" ∧ booking.payment_method = "cod" ∧
            booking.payment_status = "pending" then
          { b1 with payment_status := "paid" }
        else b1
      let bookings' := saveBooking st.bookings b'
      let workers' :=
        match b'.employee_id with
        | some wid => setCurrentJobs st.workers wid (countByStatus bookings' wid activeFour)
        | none => st.workers
      ({ st with bookings := bookings', workers := workers' }, .ok b')

inductive AssignErr where
  | not_found
  | already_assigned
  | no_eligible_workers
  | worker_not_found
  | worker_not_verified
deriving Repr, DecidableEq

/-- The Mongo eligibility filter of `PATCH /bookings/:id/auto-assign`
(lines 2750-2764). -/
def eligibleWorker (serviceId : Nat) (w : Worker) : Bool :=
  ["employee", "manager", "lead"].contains w.role &&
  w.is_available &&
  w.id_verified &&
  w.skills_verified &&
  w.background_check_status == "approved" &&
  w.approval_status == "approved" &&
  (w.skills.contains serviceId || w.skills.isEmpty) &&
  w.current_jobs < w.max_capacity

/-- The priority score of lines 2773-2781:
`100·[location match] + 10·rating + 5·experience + 2·(capacity slack)`. -/
def priorityScore (customerLocation : String) (w : Worker) : Int :=
  (if w.location = customerLocation then 100 else 0) +
  w.rating * 10 + w.experience_years * 5 +
  (w.max_capacity - w.current_jobs) * 2

/-- Stable insertion of a scored worker into a descending-sorted list:
an element goes before the first strictly smaller (or equal-scored
LATER) element, i.e. ties keep the earlier element first. -/
def insertByPriorityDesc (x : Worker × Int) :
    List (Worker × Int) → List (Worker × Int)
  | [] => [x]
  | y :: ys => if x.2 ≥ y.2 then x :: y :: ys else y :: insertByPriorityDesc x ys

/-- `workersWithPriority.sort((a, b) => b.priority - a.priority)`
(line 2784). `Array.prototype.sort` is a stable sort; with this
comparator the result is descending by priority with ties in input
order, which this stable insertion sort realizes. -/
def sortByPriorityDesc : List (Worker × Int) → List (Worker × Int)
  | [] => []
  | x :: xs => insertByPriorityDesc x (sortByPriorityDesc xs)

/-- Specification device for the sort: the first element of the list
attaining the maximal priority. The head of the stable descending sort
equals this (proved below). -/
def pickFirstMax : List (Worker × Int) → Option (Worker × Int)
  | [] => none
  | x :: xs =>
      match pickFirstMax xs with
      | none => some x
      | some y => if y.2 > x.2 then some y else some x

/-- `PATCH /bookings/:id/auto-assign` (lines 2738-2832): guards, the
eligibility filter, scoring, stable descending sort, head pick, the
booking update, and the `current_jobs` recompute over `activeTwo` on
the post-update bookings. -/
def autoAssign (now : Int) (st : SysState) (bid : Nat) :
    SysState × Except AssignErr BDoc :=
  match findBooking st bid with
  | none => (st, .error .not_found)
  | some b =>
      if b.employee_id.isSome then (st, .error .already_assigned)
      else
        let customerLocation := b.customer_pincode
        let workers := st.workers.filter (eligibleWorker b.service_id)
        if workers.isEmpty then (st, .error .no_eligible_workers)
        else
          let workersWithPriority :=
            workers.map fun w => (w, priorityScore customerLocation w)
          match sortByPriorityDesc workersWithPriority with
          | [] => (st, .error .no_eligible_workers)
          | best :: _ =>
              let bestWorker := best.1
              let b' := { b with
                employee_id := some bestWorker.id
                status := "assigned"
                assigned_at := some now }
              let bookings' := saveBooking st.bookings b'
              let activeBookings := countByStatus bookings' bestWorker.id activeTwo
              ({ st with
                  bookings := bookings'
                  workers := setCurrentJobs st.workers bestWorker.id activeBookings },
               .ok b')

/-- `PATCH /bookings/:id/assign` (lines 2835-2900): verification-only
guard (availability/capacity deliberately not re-checked), then the
same update and `activeTwo` recompute. -/
def manualAssign (now : Int) (st : SysState) (bid : Nat) (wOpt : Option Worker) :
    SysState × Except AssignErr BDoc :=
  match wOpt with
  | none => (st, .error .worker_not_found)
  | some worker =>
      if ¬ worker.id_verified ∨ ¬ worker.skills_verified ∨
          worker.background_check_status ≠ "approved" ∨
          worker.approval_status ≠ "approved" then
        (st, .error .worker_not_verified)
      else
        match findBooking st bid with
        | none => (st, .error .not_found)
        | some b =>
            let b' := { b with
              employee_id := some worker.id
              status := "assigned"
              assigned_at := some now }
            let bookings' := saveBooking st.bookings b'
            let activeBookings := countByStatus bookings' worker.id activeTwo
            ({ st with
                bookings := bookings'
                workers := setCurrentJobs st.workers worker.id activeBookings },
             .ok b')

inductive ReschedErr where
  | not_found
  | cannot_reschedule_completed
  | cannot_reschedule_cancelled
  | service_not_available
  | slot_unavailable
deriving Repr, DecidableEq

/-- Store slice for `PATCH /bookings/:id/reschedule` in the case where
the old and new (service, date, time-window) keys differ: the booking,
the slot document matching its current key, and the one matching the
requested key. -/
structure ReschedState where
  booking : BDoc
  oldSlot : Option Slot
  newSlot : Option Slot
deriving Repr, DecidableEq

/-- `PATCH /bookings/:id/reschedule` (lines 3034-3135). Source order:
terminal-status guards, serviceability, then the OLD slot is released
and saved (lines 3072-3091) BEFORE the new slot's availability is
checked (line 3103) — a full new slot rejects the request with the old
slot already decremented. -/
def reschedule (serviceable : Bool) (st : ReschedState) (new_date : Int)
    (new_time : String) : ReschedState × Except ReschedErr BDoc :=
  let booking := st.booking
  if booking.status = "completed" then (st, .error .cannot_reschedule_completed)
  else if booking.status = "cancelled" then (st, .error .cannot_reschedule_cancelled)
  else if ¬ serviceable then (st, .error .service_not_available)
  else
    let oldSlot' :=
      if booking.booking_date.isSome ∧ booking.booking_time.isSome then
        slotRelease st.oldSlot
      else st.oldSlot
    if slotFull st.newSlot then ({ st with oldSlot := oldSlot' }, .error .slot_unavailable)
    else
      let booking' := { booking with
        booking_date := some new_date
        booking_time := some new_time
        status := if booking.status = "assigned" then "pending" else booking.status }
      let newSlot' := slotReserve st.newSlot
      ({ booking := booking', oldSlot := oldSlot', newSlot := newSlot' }, .ok booking')

inductive WalletErr where
  | validation_failed
  | insufficient_balance
deriving Repr, DecidableEq

/-- Wallet slice: the user's `wallet_balance` and the transaction log. -/
structure WalletState where
  balance : Int
  txns : List WalletTxn
deriving Repr, DecidableEq

/-- `POST /wallet/transactions` (lines 4010-4066): type and amount
validation, then `credit` adds while `debit` AND `refund` subtract;
a subtraction that would go negative is rejected with
`insufficient_balance` before the transaction record is written. -/
def postWalletTransaction (st : WalletState) (amount : Int) (ttype : String) :
    WalletState × Except WalletErr WalletTxn :=
  if ¬ (["credit", "debit", "refund"].contains ttype) then (st, .error .validation_failed)
  else if amount ≤ 0 then (st, .error .validation_failed)
  else if ttype = "credit" then
    let newBalance := st.balance + amount
    let txn : WalletTxn := { amount := amount, transaction_type := ttype }
    ({ balance := newBalance, txns := st.txns ++ [txn] }, .ok txn)
  else
    let newBalance := st.balance - amount
    if newBalance < 0 then (st, .error .insufficient_balance)
    else
      let txn : WalletTxn := { amount := amount, transaction_type := ttype }
      ({ balance := newBalance, txns := st.txns ++ [txn] }, .ok txn)

inductive PayErr where
  | invalid_signature
  | payment_not_captured
  | amount_mismatch
deriving Repr, DecidableEq

/-- Gateway payment record as fetched from Razorpay: a status string
and an amount in paise. -/
structure PaymentInfo where
  status : String
  amount : Int
deriving Repr, DecidableEq

/-- `POST /payments/verify` (lines 3671-3742): HMAC signature check
(`hmac` abstracts `sha256`-HMAC with the key secret), captured/
authorized status check, amount check with a 0.01 tolerance in rupees
(`payment.amount` is paise), then the booking is marked
`payment_status = 'paid'` and `status = 'confirmed'` with no check of
its current lifecycle state. -/
def paymentsVerify (hmac : String → String)
    (razorpay_order_id razorpay_payment_id razorpay_signature : String)
    (b : BDoc) (payment : PaymentInfo) : BDoc × Except PayErr BDoc :=
  if hmac (razorpay_order_id ++ "|" ++ razorpay_payment_id) ≠ razorpay_signature then
    (b, .error .invalid_signature)
  else if payment.status ≠ "captured" ∧ payment.status ≠ "authorized" then
    (b, .error .payment_not_captured)
  else
    let paidAmount : ℚ := (payment.amount : ℚ) / 100
    if |paidAmount - (b.total_price : ℚ)| > 1 / 100 then (b, .error .amount_mismatch)
    else
      let b' := { b with payment_status := "paid", status := "confirmed" }
      (b', .ok b')

/-- The `payment.captured` branch of `POST /payments/webhook`
(lines 3774-3786), applied to the booking found from the payment notes:
unconditionally marks it paid and `confirmed`. -/
def webhookCaptured (b : BDoc) : BDoc :=
  { b with payment_status := "paid", status := "confirmed" }

/-- The seven documented lifecycle states (spec §4.6 and the schema
comment at line 338). -/
def lifecycleStates : List String :=
  ["pending", "assigned", "accepted", "reached", "in_progress", "completed", "cancelled"]

theorem slotInv_some (s : Slot) :
    slotInv (some s) ↔ 0 ≤ s.booked_count ∧ s.booked_count ≤ s.total_capacity := Iff.rfl

theorem slotStep_inv (s : Option Slot) (op : SlotOp) (h : slotInv s) :
    slotInv (slotStep s op) := by
  cases s with
  | none =>
      cases op <;> simp [slotStep, slotFull, slotReserve, slotRelease, slotInv]
  | some sl =>
      rw [slotInv_some] at h
      cases op with
      | reserve =>
          by_cases hfull : sl.booked_count ≥ sl.total_capacity
          · simp [slotStep, slotFull, hfull, slotInv_some, h]
          · by_cases h2 : sl.booked_count + 1 ≥ sl.total_capacity
            · simp [slotStep, slotFull, slotReserve, hfull, h2, slotInv_some]
              omega
            · simp [slotStep, slotFull, slotReserve, hfull, h2, slotInv_some]
              omega
      | release =>
          by_cases hpos : sl.booked_count > 0
          · simp [slotStep, slotRelease, hpos, slotInv_some]
            omega
          · simp [slotStep, slotRelease, hpos, slotInv_some, h.1, h.2]

theorem slotRun_inv (s : Option Slot) (ops : List SlotOp) (h : slotInv s) :
    slotInv (slotRun s ops) := by
  induction ops generalizing s with
  | nil => simpa [slotRun]
  | cons op ops ih =>
      have := slotStep_inv s op h
      simpa [slotRun, List.foldl_cons] using ih (slotStep s op) this

/-- C1: for every successfully created booking, the stored `total_price`
is computed server-side as
`max(0, max(0, base_price + addon_price - discount_amount) - wallet_amount)`,
is non-negative, and the client-submitted `total_price` has no influence
on the outcome. -/
theorem claim_C1_total_price (st st' : CreateState) (r : CreateReq) (b : BookingRec)
    (h : createBooking st r = (st', .ok b)) :
    b.total_price =
        max 0 (max 0 (r.base_price + r.addon_price - r.discount_amount) - r.wallet_amount) ∧
    0 ≤ b.total_price ∧
    ∀ t : Int, createBooking st { r with total_price := t } = (st', .ok b) := by
  have hindep : ∀ t : Int, createBooking st { r with total_price := t } = createBooking st r :=
    fun _ => rfl
  have heq : b.total_price =
      max 0 (max 0 (r.base_price + r.addon_price - r.discount_amount) - r.wallet_amount) := by
    rcases hcust : st.customer with _ | cust <;>
      simp only [createBooking, hcust] at h
    · exact absurd h (by simp)
    · split_ifs at h
      all_goals rw [Prod.mk.injEq] at h
      all_goals obtain ⟨hst, hb⟩ := h
      all_goals
        first
        | exact Except.noConfusion hb
        | (injection hb with hb; subst hb;
           simp [computedTotalOf, subtotalAfterDiscountOf])
  exact ⟨heq, heq ▸ le_max_left 0 _, fun t => (hindep t).trans h⟩

/-- Witness for C1: a concrete request (base 500, addon 100, discount 50,
wallet 100, client-sent total 9999) stores `total_price = 450`. -/
theorem claim_C1_total_price_witness :
    createBooking
        { customer := some { wallet_balance := 100, phone_verified := true },
          slot := some { booked_count := 0, total_capacity := 2, is_available := true },
          promo := none, txns := [] }
        { base_price := 500, addon_price := 100, discount_amount := 50, wallet_amount := 100,
          total_price := 9999, payment_status := "pending", payment_method := "cod",
          has_promo_code := false } =
      ({ customer := some { wallet_balance := 0, phone_verified := true },
         slot := some { booked_count := 1, total_capacity := 2, is_available := true },
         promo := none, txns := [{ amount := 100, transaction_type := "debit" }] },
       .ok { base_price := 500, addon_price := 100, discount_amount := 50, wallet_amount := 100,
             platform_fee := 0, total_price := 450, status := "pending",
             payment_status := "pending", payment_method := "cod" }) ∧
    ({ base_price := 500, addon_price := 100, discount_amount := 50, wallet_amount := 100,
       platform_fee := 0, total_price := 450, status := "pending",
       payment_status := "pending", payment_method := "cod" } : BookingRec).total_price =
      max 0 (max 0 ((500 : Int) + 100 - 50) - 100) := by
  constructor
  · decide
  · exact (claim_C1_total_price
      { customer := some { wallet_balance := 100, phone_verified := true },
        slot := some { booked_count := 0, total_capacity := 2, is_available := true },
        promo := none, txns := [] }
      { customer := some { wallet_balance := 0, phone_verified := true },
        slot := some { booked_count := 1, total_capacity := 2, is_available := true },
        promo := none, txns := [{ amount := 100, transaction_type := "debit" }] }
      { base_price := 500, addon_price := 100, discount_amount := 50, wallet_amount := 100,
        total_price := 9999, payment_status := "pending", payment_method := "cod",
        has_promo_code := false }
      { base_price := 500, addon_price := 100, discount_amount := 50, wallet_amount := 100,
        platform_fee := 0, total_price := 450, status := "pending",
        payment_status := "pending", payment_method := "cod" }
      (by decide)).1

/-- C6: for every slot, any sequence of reserve (booking creation) and
release (cancellation) operations preserves
`0 ≤ booked_count ≤ total_capacity`; a reservation against a full slot
fails with `slot_unavailable` before any increment (the state is
returned unchanged), and a release never takes `booked_count` below 0. -/
theorem claim_C6_slot_invariant (s : Option Slot) (ops : List SlotOp) (h : slotInv s) :
    slotInv (slotRun s ops) ∧
    (slotFull s = true → slotStep s .reserve = s) ∧
    (∀ (st : CreateState) (r : CreateReq) (c : Customer),
      st.slot = s → st.customer = some c → c.phone_verified = true → slotFull s = true →
      createBooking st r = (st, .error .slot_unavailable)) ∧
    (∀ sl' : Slot, slotStep s .release = some sl' → 0 ≤ sl'.booked_count) := by
  refine ⟨slotRun_inv s ops h, ?_, ?_, ?_⟩
  · intro hfull
    simp [slotStep, hfull]
  · intro st r c hslot hcust hphone hfull
    subst hslot
    simp [createBooking, hcust, hphone, hfull]
  · intro sl' hrel
    cases s with
    | none => simp [slotStep, slotRelease] at hrel
    | some sl =>
        rw [slotInv_some] at h
        by_cases hpos : sl.booked_count > 0
        · simp [slotStep, slotRelease, hpos] at hrel
          subst hrel
          simp
          omega
        · simp [slotStep, slotRelease, hpos] at hrel
          subst hrel
          omega

/-- Witness for C6: a full slot (2/2) survives a release-reserve-reserve-
release run with the invariant intact. -/
theorem claim_C6_slot_invariant_witness :
    slotInv (some { booked_count := 2, total_capacity := 2, is_available := false }) ∧
    slotInv (slotRun (some { booked_count := 2, total_capacity := 2, is_available := false })
      [SlotOp.release, SlotOp.reserve, SlotOp.reserve, SlotOp.release]) :=
  ⟨by decide, (claim_C6_slot_invariant _ _ (by decide)).1⟩

/-- C4 counterexample: a promo already at its cap
(`usage_count = 1 = max_usage`) is still accepted by booking creation,
which increments `usage_count` to 2 — exceeding `max_usage`, because
`POST /bookings` (lines 2492-2499) increments without any cap check. -/
theorem claim_C4_counterexample :
    createBooking
        { customer := some { wallet_balance := 0, phone_verified := true },
          slot := none,
          promo := some { usage_count := 1, max_usage := some 1, min_order_value := none,
                          valid_from := none, valid_until := none },
          txns := [] }
        { base_price := 300, addon_price := 0, discount_amount := 0, wallet_amount := 0,
          total_price := 300, payment_status := "pending", payment_method := "cod",
          has_promo_code := true } =
      ({ customer := some { wallet_balance := 0, phone_verified := true },
         slot := none,
         promo := some { usage_count := 2, max_usage := some 1, min_order_value := none,
                         valid_from := none, valid_until := none },
         txns := [] },
       .ok { base_price := 300, addon_price := 0, discount_amount := 0, wallet_amount := 0,
             platform_fee := 0, total_price := 300, status := "pending",
             payment_status := "pending", payment_method := "cod" }) ∧
    ¬ ((2 : Int) ≤ 1) := by decide

/-- C4 amended: a successful booking creation that references a found
promo code increments its `usage_count` by exactly 1 (and leaves it
unchanged when no code is referenced), but creation never checks
`max_usage`; the cap is only enforced by the separate
`GET /promo/validate` endpoint, which rejects with
`usage_limit_exceeded` once `usage_count ≥ max_usage` (for a nonzero
cap, JS truthiness). -/
theorem claim_C4_amended (st st' : CreateState) (r : CreateReq) (b : BookingRec)
    (hok : createBooking st r = (st', .ok b)) :
    (∀ p : PromoCode, st.promo = some p → r.has_promo_code = true →
      st'.promo = some { p with usage_count := p.usage_count + 1 }) ∧
    (r.has_promo_code = false → st'.promo = st.promo) ∧
    (∀ (p : PromoCode) (m now subtotal : Int), p.max_usage = some m → m ≠ 0 →
      m ≤ p.usage_count →
      p.valid_until.elim false (fun u => decide (u < now)) = false →
      p.valid_from.elim false (fun f => decide (f > now)) = false →
      ¬ subtotal < p.min_order_value.getD 0 →
      validatePromo now (some p) subtotal = .error .usage_limit_exceeded) := by
  have hstate : st'.promo =
      (if r.has_promo_code then
        st.promo.map (fun p => { p with usage_count := p.usage_count + 1 })
      else st.promo) := by
    rcases hcust : st.customer with _ | cust <;>
      simp only [createBooking, hcust] at hok
    · exact absurd hok (by simp)
    · split_ifs at hok
      all_goals rw [Prod.mk.injEq] at hok
      all_goals obtain ⟨hst, hb⟩ := hok
      all_goals
        first
        | exact Except.noConfusion hb
        | (subst hst; simp_all)
  refine ⟨?_, ?_, ?_⟩
  · intro p hp hcode
    rw [hstate, if_pos hcode, hp]
    rfl
  · intro hcode
    rw [hstate, hcode]
    simp
  · intro p m now subtotal hm hm0 hge hvu hvf hmin
    simp [validatePromo, hvu, hvf, hmin, truthyInt, hm, hm0, hge]

/-- Witness for C4 amended: usage 3 → 4 on a successful creation, and
validate rejects a promo at usage 5 of cap 5. -/
theorem claim_C4_amended_witness :
    (createBooking
        { customer := some { wallet_balance := 0, phone_verified := true },
          slot := none,
          promo := some { usage_count := 3, max_usage := some 5, min_order_value := none,
                          valid_from := none, valid_until := none },
          txns := [] }
        { base_price := 300, addon_price := 0, discount_amount := 0, wallet_amount := 0,
          total_price := 300, payment_status := "pending", payment_method := "cod",
          has_promo_code := true }).1.promo =
      some { usage_count := 4, max_usage := some 5, min_order_value := none,
             valid_from := none, valid_until := none } ∧
    validatePromo 0
        (some { usage_count := 5, max_usage := some 5, min_order_value := none,
                valid_from := none, valid_until := none }) 500 =
      .error .usage_limit_exceeded := by
  have h := claim_C4_amended
    { customer := some { wallet_balance := 0, phone_verified := true },
      slot := none,
      promo := some { usage_count := 3, max_usage := some 5, min_order_value := none,
                      valid_from := none, valid_until := none },
      txns := [] }
    { customer := some { wallet_balance := 0, phone_verified := true },
      slot := none,
      promo := some { usage_count := 4, max_usage := some 5, min_order_value := none,
                      valid_from := none, valid_until := none },
      txns := [] }
    { base_price := 300, addon_price := 0, discount_amount := 0, wallet_amount := 0,
      total_price := 300, payment_status := "pending", payment_method := "cod",
      has_promo_code := true }
    { base_price := 300, addon_price := 0, discount_amount := 0, wallet_amount := 0,
      platform_fee := 0, total_price := 300, status := "pending",
      payment_status := "pending", payment_method := "cod" }
    (by decide)
  exact ⟨h.1 _ rfl rfl, h.2.2 _ 5 0 500 rfl (by decide) (by decide) rfl rfl (by decide)⟩

/-- Helper: a successful `POST /bookings` leaves the customer's wallet
balance non-negative when it was non-negative before (the debit is
guarded by the `insufficient_wallet_balance` check). -/
theorem createBooking_wallet_nonneg (st st' : CreateState) (r : CreateReq) (b : BookingRec)
    (c c' : Customer) (hc : st.customer = some c) (h0 : 0 ≤ c.wallet_balance)
    (hok : createBooking st r = (st', .ok b)) (hc' : st'.customer = some c') :
    0 ≤ c'.wallet_balance := by
  simp only [createBooking, hc] at hok
  split_ifs at hok
  all_goals rw [Prod.mk.injEq] at hok
  all_goals obtain ⟨hst, hb⟩ := hok
  all_goals
    first
    | exact Except.noConfusion hb
    | (subst hst; simp only [Option.some.injEq] at hc'; subst hc';
       first
       | omega
       | (simp <;> omega))

/-- C8 counterexample: executing a `refund` of 30 on a balance of 100
leaves 70, not 130 — `POST /wallet/transactions` (lines 4037-4038)
subtracts for `refund` exactly as for `debit`. -/
theorem claim_C8_counterexample :
    (postWalletTransaction { balance := 100, txns := [] } 30 "refund").1.balance = 70 ∧
    ¬ ((70 : Int) = 100 + 30) := by decide

/-- C8 amended: `refund` is symmetric with `debit`, not `credit`:
both subtract the amount, rejected with `insufficient_balance` BEFORE
the transaction record is written whenever the balance would go
negative; `credit` adds. No wallet operation (including the
booking-creation debit) leaves a non-negative balance negative. -/
theorem claim_C8_amended (st : WalletState) (amount : Int) (ttype : String) :
    (0 < amount → (ttype = "refund" ∨ ttype = "debit") →
      (st.balance - amount < 0 →
        postWalletTransaction st amount ttype = (st, .error .insufficient_balance)) ∧
      (¬ st.balance - amount < 0 →
        postWalletTransaction st amount ttype =
          ({ balance := st.balance - amount,
             txns := st.txns ++ [{ amount := amount, transaction_type := ttype }] },
           .ok { amount := amount, transaction_type := ttype }))) ∧
    (0 < amount → ttype = "credit" →
      postWalletTransaction st amount ttype =
        ({ balance := st.balance + amount,
           txns := st.txns ++ [{ amount := amount, transaction_type := ttype }] },
         .ok { amount := amount, transaction_type := ttype })) ∧
    (0 ≤ st.balance → 0 ≤ (postWalletTransaction st amount ttype).1.balance) ∧
    (∀ (cst cst' : CreateState) (r : CreateReq) (b : BookingRec) (c c' : Customer),
      cst.customer = some c → 0 ≤ c.wallet_balance →
      createBooking cst r = (cst', .ok b) → cst'.customer = some c' →
      0 ≤ c'.wallet_balance) := by
  refine ⟨?_, ?_, ?_, ?_⟩
  · rintro h0 hty
    constructor
    · intro hneg
      rcases hty with rfl | rfl <;>
        simp [postWalletTransaction, show ¬ amount ≤ 0 by omega, hneg]
    · intro hpos
      rcases hty with rfl | rfl <;>
        simp [postWalletTransaction, show ¬ amount ≤ 0 by omega, hpos]
  · rintro h0 rfl
    simp [postWalletTransaction, show ¬ amount ≤ 0 by omega]
  · intro h0
    simp only [postWalletTransaction]
    split_ifs <;>
      first
      | omega
      | (simp <;> omega)
  · intro cst cst' r b c c' hc h0 hok hc'
    exact createBooking_wallet_nonneg cst cst' r b c c' hc h0 hok hc'

/-- Witness for C8 amended: refund 30 on balance 100 gives 70; refund 30
on balance 20 is rejected with no transaction written. -/
theorem claim_C8_amended_witness :
    postWalletTransaction { balance := 100, txns := [] } 30 "refund" =
      ({ balance := 70, txns := [{ amount := 30, transaction_type := "refund" }] },
       .ok { amount := 30, transaction_type := "refund" }) ∧
    postWalletTransaction { balance := 20, txns := [] } 30 "refund" =
      ({ balance := 20, txns := [] }, .error .insufficient_balance) := by
  have h := claim_C8_amended { balance := 100, txns := [] } 30 "refund"
  have h2 := claim_C8_amended { balance := 20, txns := [] } 30 "refund"
  exact ⟨(h.1 (by decide) (Or.inl rfl)).2 (by decide),
         (h2.1 (by decide) (Or.inl rfl)).1 (by decide)⟩

/-- C2 counterexample: a reschedule into a full slot is rejected with
`slot_unavailable`, yet the old slot's `booked_count` has already been
decremented from 1 to 0 and saved — the old slot is NOT unchanged
(reschedule releases the old slot before checking the new one,
lines 3072-3108). -/
theorem claim_C2_counterexample :
    reschedule true
        { booking := { id := 1, service_id := 1, employee_id := none, status := "pending",
                       booking_date := some 1, booking_time := some "morning",
                       customer_pincode := "273001", total_price := 300,
                       payment_status := "pending", payment_method := "cod",
                       assigned_at := none, accepted_at := none, reached_at := none,
                       started_at := none, completed_at := none, cancelled_at := none,
                       cancellation_reason := none, cancelled_by := none },
          oldSlot := some { booked_count := 1, total_capacity := 1, is_available := false },
          newSlot := some { booked_count := 1, total_capacity := 1, is_available := false } }
        2 "afternoon" =
      ({ booking := { id := 1, service_id := 1, employee_id := none, status := "pending",
                      booking_date := some 1, booking_time := some "morning",
                      customer_pincode := "273001", total_price := 300,
                      payment_status := "pending", payment_method := "cod",
                      assigned_at := none, accepted_at := none, reached_at := none,
                      started_at := none, completed_at := none, cancelled_at := none,
                      cancellation_reason := none, cancelled_by := none },
         oldSlot := some { booked_count := 0, total_capacity := 1, is_available := true },
         newSlot := some { booked_count := 1, total_capacity := 1, is_available := false } },
       .error .slot_unavailable) ∧
    ¬ (some ({ booked_count := 0, total_capacity := 1, is_available := true } : Slot) =
        some ({ booked_count := 1, total_capacity := 1, is_available := false } : Slot)) := by
  decide

/-- C2 amended: booking creation and cancellation leave the store
exactly as it was whenever they fail with a precondition error, and so
do the reschedule guards — EXCEPT the `slot_unavailable` rejection of
reschedule, which happens after the old slot has been released: there
the booking and the new slot are unchanged but the old slot has
already been decremented. -/
theorem claim_C2_no_partial_mutation_amended :
    (∀ (cst cst' : CreateState) (r : CreateReq) (e : CreateErr),
      createBooking cst r = (cst', .error e) → cst' = cst) ∧
    (∀ (now : Int) (st st' : SysState) (bid : Nat) (reason cby : Option String)
        (e : LifecycleErr),
      cancelBooking now st bid reason cby = (st', .error e) → st' = st) ∧
    (∀ (st st' : ReschedState) (serviceable : Bool) (d : Int) (t : String) (e : ReschedErr),
      reschedule serviceable st d t = (st', .error e) →
      (e ≠ .slot_unavailable → st' = st) ∧
      (e = .slot_unavailable →
        st'.newSlot = st.newSlot ∧ st'.booking = st.booking ∧
        st'.oldSlot =
          (if st.booking.booking_date.isSome ∧ st.booking.booking_time.isSome then
            slotRelease st.oldSlot
          else st.oldSlot))) := by
  refine ⟨?_, ?_, ?_⟩
  · intro cst cst' r e h
    rcases hcust : cst.customer with _ | cust <;>
      simp only [createBooking, hcust] at h
    · rw [Prod.mk.injEq] at h
      exact h.1.symm
    · split_ifs at h
      all_goals rw [Prod.mk.injEq] at h
      all_goals obtain ⟨hst, hb⟩ := h
      all_goals
        first
        | exact Except.noConfusion hb
        | exact hst.symm
  · intro now st st' bid reason cby e h
    rcases hfind : findBooking st bid with _ | b <;>
      simp only [cancelBooking, hfind] at h
    · rw [Prod.mk.injEq] at h
      exact h.1.symm
    · split_ifs at h
      all_goals rw [Prod.mk.injEq] at h
      all_goals obtain ⟨hst, hb⟩ := h
      all_goals
        first
        | exact Except.noConfusion hb
        | exact hst.symm
  · intro st st' serviceable d t e h
    simp only [reschedule] at h
    split_ifs at h
    all_goals rw [Prod.mk.injEq] at h
    all_goals obtain ⟨hst, hb⟩ := h
    all_goals first
      | exact Except.noConfusion hb
      | (injection hb with hb; subst hb; subst hst;
         refine ⟨fun hne => ?_, fun hsu => ?_⟩ <;>
           first
           | rfl
           | exact absurd rfl hne
           | exact ReschedErr.noConfusion hsu
           | (refine ⟨rfl, rfl, ?_⟩; split <;> simp_all))

/-- Witness for C2 amended: at the concrete rejected reschedule, the
booking and new slot are untouched and the old slot equals its released
version. -/
theorem claim_C2_no_partial_mutation_amended_witness :
    ({ booking := { id := 1, service_id := 1, employee_id := none, status := "pending",
                    booking_date := some 1, booking_time := some "morning",
                    customer_pincode := "273001", total_price := 300,
                    payment_status := "pending", payment_method := "cod",
                    assigned_at := none, accepted_at := none, reached_at := none,
                    started_at := none, completed_at := none, cancelled_at := none,
                    cancellation_reason := none, cancelled_by := none },
       oldSlot := some { booked_count := 0, total_capacity := 1, is_available := true },
       newSlot := some { booked_count := 1, total_capacity := 1, is_available := false } }
        : ReschedState).newSlot =
      some { booked_count := 1, total_capacity := 1, is_available := false } ∧
    ({ booking := { id := 1, service_id := 1, employee_id := none, status := "pending",
                    booking_date := some 1, booking_time := some "morning",
                    customer_pincode := "273001", total_price := 300,
                    payment_status := "pending", payment_method := "cod",
                    assigned_at := none, accepted_at := none, reached_at := none,
                    started_at := none, completed_at := none, cancelled_at := none,
                    cancellation_reason := none, cancelled_by := none },
       oldSlot := some { booked_count := 0, total_capacity := 1, is_available := true },
       newSlot := some { booked_count := 1, total_capacity := 1, is_available := false } }
        : ReschedState).oldSlot =
      slotRelease (some { booked_count := 1, total_capacity := 1, is_available := false }) := by
  have h := (claim_C2_no_partial_mutation_amended.2.2
    { booking := { id := 1, service_id := 1, employee_id := none, status := "pending",
                   booking_date := some 1, booking_time := some "morning",
                   customer_pincode := "273001", total_price := 300,
                   payment_status := "pending", payment_method := "cod",
                   assigned_at := none, accepted_at := none, reached_at := none,
                   started_at := none, completed_at := none, cancelled_at := none,
                   cancellation_reason := none, cancelled_by := none },
      oldSlot := some { booked_count := 1, total_capacity := 1, is_available := false },
      newSlot := some { booked_count := 1, total_capacity := 1, is_available := false } }
    { booking := { id := 1, service_id := 1, employee_id := none, status := "pending",
                   booking_date := some 1, booking_time := some "morning",
                   customer_pincode := "273001", total_price := 300,
                   payment_status := "pending", payment_method := "cod",
                   assigned_at := none, accepted_at := none, reached_at := none,
                   started_at := none, completed_at := none, cancelled_at := none,
                   cancellation_reason := none, cancelled_by := none },
      oldSlot := some { booked_count := 0, total_capacity := 1, is_available := true },
      newSlot := some { booked_count := 1, total_capacity := 1, is_available := false } }
    true 2 "afternoon" .slot_unavailable (by decide)).2 rfl
  exact ⟨h.1, h.2.2.trans (by decide)⟩

/-- C5: a non-expired challenge with `attempts ≥ 5` fails with
`otp_attempts_exceeded` for EVERY submitted code (matching or not) and
is left unchanged, so the failure persists over any further sequence of
non-expired attempts until a new challenge replaces it; a hash mismatch
with `attempts < 5` increments `attempts` by exactly 1, the `attempts ≤ 5`
invariant is preserved by every verify call, and a fresh challenge from
request-OTP starts back at `attempts = 0`. -/
theorem claim_C5_otp_attempts (hash : String → String) (otp : OTPChallenge) :
    (∀ (now : Int) (code : String), 5 ≤ otp.attempts → ¬ otp.expires_at < now →
      verifyOtp hash now (some otp) code = (some otp, .error .otp_attempts_exceeded)) ∧
    (∀ tries : List (Int × String), 5 ≤ otp.attempts →
      (∀ t ∈ tries, ¬ otp.expires_at < t.1) →
      verifyFold hash (some otp) tries = some otp) ∧
    (∀ (now : Int) (code : String), otp.attempts < 5 → ¬ otp.expires_at < now →
      hash code ≠ otp.code_hash →
      verifyOtp hash now (some otp) code =
        (some { otp with attempts := otp.attempts + 1 }, .error .otp_invalid)) ∧
    (∀ (now : Int) (st : Option OTPChallenge) (code : String), otpInv st →
      otpInv (verifyOtp hash now st code).1) ∧
    (∀ (now : Int) (st st' : Option OTPChallenge) (o' : OTPChallenge) (code : String),
      requestOtp hash now st code = (st', .ok ()) → st' = some o' → o'.attempts = 0) := by
  have key : ∀ (now : Int) (code : String), 5 ≤ otp.attempts → ¬ otp.expires_at < now →
      verifyOtp hash now (some otp) code = (some otp, .error .otp_attempts_exceeded) := by
    intro now code hatt hexp
    simp [verifyOtp, hexp, hatt]
  refine ⟨key, ?_, ?_, ?_, ?_⟩
  · intro tries hatt hall
    induction tries with
    | nil => rfl
    | cons t ts ih =>
        have h1 := key t.1 t.2 hatt (hall t (List.mem_cons_self t ts))
        have hstep : verifyFold hash (some otp) (t :: ts) =
            verifyFold hash (verifyOtp hash t.1 (some otp) t.2).1 ts := rfl
        rw [hstep, h1]
        exact ih (fun x hx => hall x (List.mem_cons_of_mem _ hx))
  · intro now code hatt hexp hmiss
    simp [verifyOtp, hexp, show ¬ 5 ≤ otp.attempts by omega, hmiss]
  · intro now st code hinv
    cases st with
    | none => simp [verifyOtp, otpInv]
    | some o =>
        simp only [verifyOtp]
        split_ifs <;> simp_all [otpInv] <;> omega
  · intro now st st' o' code hreq hst
    cases st with
    | none =>
        simp only [requestOtp] at hreq
        rw [Prod.mk.injEq] at hreq
        rw [← hreq.1] at hst
        injection hst with hst
        rw [← hst]
    | some existing =>
        simp only [requestOtp] at hreq
        split_ifs at hreq with hrl
        · exact absurd hreq (by simp)
        · rw [Prod.mk.injEq] at hreq
          rw [← hreq.1] at hst
          injection hst with hst
          rw [← hst]

/-- Witness for C5: a challenge with 5 attempts rejects even the correct
code (`hash = id`, submitted code equals the stored hash). -/
theorem claim_C5_otp_attempts_witness :
    (fun s => s) "h42" = ("h42" : String) ∧
    verifyOtp (fun s => s) 50
        (some { code_hash := "h42", expires_at := 100, attempts := 5, last_sent_at := 0 })
        "h42" =
      (some { code_hash := "h42", expires_at := 100, attempts := 5, last_sent_at := 0 },
       .error .otp_attempts_exceeded) :=
  ⟨rfl,
   (claim_C5_otp_attempts (fun s => s)
     { code_hash := "h42", expires_at := 100, attempts := 5, last_sent_at := 0 }).1
     50 "h42" (by decide) (by decide)⟩

/-- C10: after a successful online payment verification (valid
signature, captured/authorized payment, matching amount) or a
`payment.captured` webhook event, the booking's `payment_status` is
`'paid'` and its `status` is `'confirmed'` — a value outside the seven
documented lifecycle states — regardless of the booking's current
lifecycle state. -/
theorem claim_C10_payment_confirmed (hmac : String → String)
    (oid pid sig : String) (b : BDoc) (payment : PaymentInfo)
    (hsig : hmac (oid ++ "|" ++ pid) = sig)
    (hcap : payment.status = "captured" ∨ payment.status = "authorized")
    (hamt : ¬ |((payment.amount : ℚ) / 100) - (b.total_price : ℚ)| > 1 / 100) :
    (paymentsVerify hmac oid pid sig b payment).1.payment_status = "paid" ∧
    (paymentsVerify hmac oid pid sig b payment).1.status = "confirmed" ∧
    (paymentsVerify hmac oid pid sig b payment).2 =
      .ok (paymentsVerify hmac oid pid sig b payment).1 ∧
    (webhookCaptured b).payment_status = "paid" ∧
    (webhookCaptured b).status = "confirmed" ∧
    "confirmed" ∉ lifecycleStates := by
  have hnc : ¬ (payment.status ≠ "captured" ∧ payment.status ≠ "authorized") := by
    rcases hcap with h | h <;> simp [h]
  rw [gt_iff_lt, one_div] at hamt
  refine ⟨?_, ?_, ?_, rfl, rfl, by decide⟩ <;>
    simp [paymentsVerify, hsig, hnc, hamt]

/-- Witness for C10: a cancelled booking, once the gateway confirms a
matching captured payment, is moved to `'confirmed'` and marked paid. -/
theorem claim_C10_payment_confirmed_witness :
    (paymentsVerify (fun s => s) "oid" "pid" "oid|pid"
        { id := 1, service_id := 1, employee_id := none, status := "cancelled",
          booking_date := none, booking_time := none, customer_pincode := "",
          total_price := 500, payment_status := "pending", payment_method := "online",
          assigned_at := none, accepted_at := none, reached_at := none,
          started_at := none, completed_at := none, cancelled_at := some 9,
          cancellation_reason := none, cancelled_by := none }
        { status := "captured", amount := 50000 }).1.status = "confirmed" ∧
    "confirmed" ∉ lifecycleStates := by
  have h := claim_C10_payment_confirmed (fun s => s) "oid" "pid" "oid|pid"
    { id := 1, service_id := 1, employee_id := none, status := "cancelled",
      booking_date := none, booking_time := none, customer_pincode := "",
      total_price := 500, payment_status := "pending", payment_method := "online",
      assigned_at := none, accepted_at := none, reached_at := none,
      started_at := none, completed_at := none, cancelled_at := some 9,
      cancellation_reason := none, cancelled_by := none }
    { status := "captured", amount := 50000 }
    rfl (Or.inl rfl) (by norm_num)
  exact ⟨h.2.1, h.2.2.2.2.2⟩

/-- C9 counterexample: the generic `PATCH /bookings/:id/status` endpoint
has no guard on the current status, so it moves a `cancelled` booking to
`accepted` — `cancelled` is not absorbing. -/
theorem claim_C9_counterexample :
    ((updateStatus 5
        { bookings := [{ id := 1, service_id := 1, employee_id := none, status := "cancelled",
                         booking_date := none, booking_time := none, customer_pincode := "",
                         total_price := 300, payment_status := "pending",
                         payment_method := "cod", assigned_at := none, accepted_at := none,
                         reached_at := none, started_at := none, completed_at := none,
                         cancelled_at := some 1, cancellation_reason := none,
                         cancelled_by := none }],
          workers := [], slot := none }
        1 "accepted").1.bookings.map BDoc.status = ["accepted"]) ∧
    ¬ (["accepted"] = ["cancelled"]) := by decide

/-- C9 amended: `cancelled` and `completed` do block the dedicated
lifecycle endpoints (accept, mark-reached, start-work; complete blocks
`cancelled`; cancel rejects re-cancel and cancel-after-complete;
reschedule rejects both terminals) — but the generic status-update
endpoint changes any booking's status to any submitted value with no
guard, so neither status is absorbing. -/
theorem claim_C9_terminal_statuses_amended (now : Int) (st : SysState) (bid : Nat)
    (b : BDoc) (hfind : findBooking st bid = some b) :
    (b.status = "cancelled" ∨ b.status = "completed" →
      acceptBooking now st bid = (st, .error .invalid_status) ∧
      markReached now st bid = (st, .error .invalid_status) ∧
      startWork now st bid = (st, .error .invalid_status)) ∧
    (b.status = "cancelled" →
      completeBooking now st bid = (st, .error .invalid_status)) ∧
    (b.status = "completed" → ∀ reason cby : Option String,
      cancelBooking now st bid reason cby = (st, .error .cannot_cancel_completed)) ∧
    (b.status = "cancelled" → ∀ reason cby : Option String,
      cancelBooking now st bid reason cby = (st, .error .already_cancelled)) ∧
    (∀ (rst : ReschedState) (serviceable : Bool) (d : Int) (t : String),
      rst.booking = b →
      (b.status = "completed" →
        reschedule serviceable rst d t = (rst, .error .cannot_reschedule_completed)) ∧
      (b.status = "cancelled" →
        reschedule serviceable rst d t = (rst, .error .cannot_reschedule_cancelled))) ∧
    (∀ newStatus : String, ∃ b' : BDoc,
      (updateStatus now st bid newStatus).2 = .ok b' ∧ b'.status = newStatus) := by
  refine ⟨?_, ?_, ?_, ?_, ?_, ?_⟩
  · intro hs
    refine ⟨?_, ?_, ?_⟩ <;>
      simp [acceptBooking, markReached, startWork, findBooking] at * <;>
      simp [hfind, hs]
  · intro hs
    simp [completeBooking, hfind, hs]
  · intro hs reason cby
    simp [cancelBooking, hfind, hs]
  · intro hs reason cby
    simp [cancelBooking, hfind, hs]
  · intro rst serviceable d t hrb
    constructor <;> intro hs <;> simp [reschedule, hrb, hs]
  · intro ns
    simp only [updateStatus, hfind]
    refine ⟨_, rfl, ?_⟩
    simp only [statusUpdateData]
    split_ifs <;> rfl

/-- Witness for C9 amended: on a concrete cancelled booking, accept is
rejected with `invalid_status` while the generic status update moves it
to `accepted`. -/
theorem claim_C9_terminal_statuses_amended_witness :
    acceptBooking 5
        { bookings := [{ id := 1, service_id := 1, employee_id := none, status := "cancelled",
                         booking_date := none, booking_time := none, customer_pincode := "",
                         total_price := 300, payment_status := "pending",
                         payment_method := "cod", assigned_at := none, accepted_at := none,
                         reached_at := none, started_at := none, completed_at := none,
                         cancelled_at := some 1, cancellation_reason := none,
                         cancelled_by := none }],
          workers := [], slot := none } 1 =
      ({ bookings := [{ id := 1, service_id := 1, employee_id := none, status := "cancelled",
                        booking_date := none, booking_time := none, customer_pincode := "",
                        total_price := 300, payment_status := "pending",
                        payment_method := "cod", assigned_at := none, accepted_at := none,
                        reached_at := none, started_at := none, completed_at := none,
                        cancelled_at := some 1, cancellation_reason := none,
                        cancelled_by := none }],
         workers := [], slot := none }, .error .invalid_status) ∧
    (∃ b' : BDoc,
      (updateStatus 5
          { bookings := [{ id := 1, service_id := 1, employee_id := none, status := "cancelled",
                           booking_date := none, booking_time := none, customer_pincode := "",
                           total_price := 300, payment_status := "pending",
                           payment_method := "cod", assigned_at := none, accepted_at := none,
                           reached_at := none, started_at := none, completed_at := none,
                           cancelled_at := some 1, cancellation_reason := none,
                           cancelled_by := none }],
            workers := [], slot := none } 1 "accepted").2 = .ok b' ∧
      b'.status = "accepted") := by
  have h := claim_C9_terminal_statuses_amended 5
    { bookings := [{ id := 1, service_id := 1, employee_id := none, status := "cancelled",
                     booking_date := none, booking_time := none, customer_pincode := "",
                     total_price := 300, payment_status := "pending",
                     payment_method := "cod", assigned_at := none, accepted_at := none,
                     reached_at := none, started_at := none, completed_at := none,
                     cancelled_at := some 1, cancellation_reason := none,
                     cancelled_by := none }],
      workers := [], slot := none } 1
    { id := 1, service_id := 1, employee_id := none, status := "cancelled",
      booking_date := none, booking_time := none, customer_pincode := "",
      total_price := 300, payment_status := "pending",
      payment_method := "cod", assigned_at := none, accepted_at := none,
      reached_at := none, started_at := none, completed_at := none,
      cancelled_at := some 1, cancellation_reason := none, cancelled_by := none }
    (by decide)
  exact ⟨(h.1 (Or.inl rfl)).1, h.2.2.2.2.2 "accepted"⟩

/-- Helper: after `Profile.findByIdAndUpdate(wid, {current_jobs: n})`,
every stored worker with that id carries `current_jobs = n`. -/
theorem setCurrentJobs_mem (ws : List Worker) (wid : Nat) (n : Int) (w' : Worker)
    (hmem : w' ∈ setCurrentJobs ws wid n) (hid : w'.id = wid) : w'.current_jobs = n := by
  simp only [setCurrentJobs, List.mem_map] at hmem
  obtain ⟨w, hw, heq⟩ := hmem
  by_cases h : w.id = wid
  · subst heq
    simp [h]
  · subst heq
    simp [h] at hid

/-- C3 counterexample: worker 1 already has an `accepted` booking;
auto-assigning a second booking recomputes `current_jobs` over only
`{assigned, in_progress}` (lines 2795-2798), storing 1, while the count
over `{assigned, accepted, reached, in_progress}` is 2. -/
theorem claim_C3_counterexample :
    ((autoAssign 5
        { bookings := [{ id := 0, service_id := 7, employee_id := some 1, status := "accepted",
                         booking_date := none, booking_time := none, customer_pincode := "",
                         total_price := 100, payment_status := "pending",
                         payment_method := "cod", assigned_at := none, accepted_at := some 1,
                         reached_at := none, started_at := none, completed_at := none,
                         cancelled_at := none, cancellation_reason := none,
                         cancelled_by := none },
                       { id := 1, service_id := 7, employee_id := none, status := "pending",
                         booking_date := none, booking_time := none, customer_pincode := "",
                         total_price := 200, payment_status := "pending",
                         payment_method := "cod", assigned_at := none, accepted_at := none,
                         reached_at := none, started_at := none, completed_at := none,
                         cancelled_at := none, cancellation_reason := none,
                         cancelled_by := none }],
          workers := [{ id := 1, role := "employee", is_available := true, id_verified := true,
                        skills_verified := true, background_check_status := "approved",
                        approval_status := "approved", skills := [], location := "",
                        rating := 0, experience_years := 0, max_capacity := 5,
                        current_jobs := 0 }],
          slot := none } 1).1.workers.map Worker.current_jobs = [1]) ∧
    countByStatus
        ((autoAssign 5
          { bookings := [{ id := 0, service_id := 7, employee_id := some 1, status := "accepted",
                           booking_date := none, booking_time := none, customer_pincode := "",
                           total_price := 100, payment_status := "pending",
                           payment_method := "cod", assigned_at := none, accepted_at := some 1,
                           reached_at := none, started_at := none, completed_at := none,
                           cancelled_at := none, cancellation_reason := none,
                           cancelled_by := none },
                         { id := 1, service_id := 7, employee_id := none, status := "pending",
                           booking_date := none, booking_time := none, customer_pincode := "",
                           total_price := 200, payment_status := "pending",
                           payment_method := "cod", assigned_at := none, accepted_at := none,
                           reached_at := none, started_at := none, completed_at := none,
                           cancelled_at := none, cancellation_reason := none,
                           cancelled_by := none }],
            workers := [{ id := 1, role := "employee", is_available := true, id_verified := true,
                          skills_verified := true, background_check_status := "approved",
                          approval_status := "approved", skills := [], location := "",
                          rating := 0, experience_years := 0, max_capacity := 5,
                          current_jobs := 0 }],
            slot := none } 1).1.bookings) 1 activeFour = 2 ∧
    ¬ ((1 : Int) = 2) := by decide

/-- C3 amended: the recompute target differs per endpoint. After
auto-assign and manual assign, the assignee's `current_jobs` equals the
count of their bookings with status in `{assigned, in_progress}` over
the post-update store; after complete it equals the count over
`{assigned, accepted, reached, in_progress}` (post-update); after
cancel it equals the count over `{assigned, in_progress}` taken over
the store BEFORE the cancellation was saved. -/
theorem claim_C3_current_jobs_amended (now : Int) (st st' : SysState) (bid : Nat)
    (b' : BDoc) :
    (autoAssign now st bid = (st', .ok b') →
      ∀ wid : Nat, b'.employee_id = some wid →
      ∀ w' ∈ st'.workers, w'.id = wid →
        w'.current_jobs = countByStatus st'.bookings wid activeTwo) ∧
    (∀ wOpt : Option Worker, manualAssign now st bid wOpt = (st', .ok b') →
      ∀ wid : Nat, b'.employee_id = some wid →
      ∀ w' ∈ st'.workers, w'.id = wid →
        w'.current_jobs = countByStatus st'.bookings wid activeTwo) ∧
    (completeBooking now st bid = (st', .ok b') →
      ∀ wid : Nat, b'.employee_id = some wid →
      ∀ w' ∈ st'.workers, w'.id = wid →
        w'.current_jobs = countByStatus st'.bookings wid activeFour) ∧
    (∀ reason cby : Option String, cancelBooking now st bid reason cby = (st', .ok b') →
      ∀ wid : Nat, b'.employee_id = some wid →
      ∀ w' ∈ st'.workers, w'.id = wid →
        w'.current_jobs = countByStatus st.bookings wid activeTwo) := by
  refine ⟨?_, ?_, ?_, ?_⟩
  · intro hok wid hwid w' hmem hid
    rcases hfind : findBooking st bid with _ | b <;>
      simp only [autoAssign, hfind] at hok
    · exact absurd (congrArg Prod.snd hok) (by simp)
    · split_ifs at hok with h1 h2
      · exact absurd (congrArg Prod.snd hok) (by simp)
      · exact absurd (congrArg Prod.snd hok) (by simp)
      · rcases hsort : sortByPriorityDesc
            ((st.workers.filter (eligibleWorker b.service_id)).map
              (fun w => (w, priorityScore b.customer_pincode w))) with _ | ⟨best, rest⟩ <;>
          simp only [hsort] at hok
        · exact absurd (congrArg Prod.snd hok) (by simp)
        · rw [Prod.mk.injEq] at hok
          obtain ⟨hst, hb⟩ := hok
          injection hb with hb
          subst hb
          subst hst
          simp only [Option.some.injEq] at hwid
          subst hwid
          simp only [] at hmem
          exact setCurrentJobs_mem _ _ _ _ hmem hid
  · intro wOpt hok wid hwid w' hmem hid
    rcases wOpt with _ | worker <;> simp only [manualAssign] at hok
    · exact absurd (congrArg Prod.snd hok) (by simp)
    · split_ifs at hok with hv
      · exact absurd (congrArg Prod.snd hok) (by simp)
      · rcases hfind : findBooking st bid with _ | b <;>
          simp only [hfind] at hok
        · exact absurd (congrArg Prod.snd hok) (by simp)
        · rw [Prod.mk.injEq] at hok
          obtain ⟨hst, hb⟩ := hok
          injection hb with hb
          subst hb
          subst hst
          simp only [Option.some.injEq] at hwid
          subst hwid
          simp only [] at hmem
          exact setCurrentJobs_mem _ _ _ _ hmem hid
  · intro hok wid hwid w' hmem hid
    rcases hfind : findBooking st bid with _ | b <;>
      simp only [completeBooking, hfind] at hok
    · exact absurd (congrArg Prod.snd hok) (by simp)
    · split_ifs at hok with h1 h2
      · exact absurd (congrArg Prod.snd hok) (by simp)
      all_goals
        rw [Prod.mk.injEq] at hok
      all_goals
        obtain ⟨hst, hb⟩ := hok
      all_goals
        injection hb with hb
      all_goals
        subst hb
      all_goals
        subst hst
      all_goals
        simp only [] at hwid
      all_goals
        rw [hwid] at hmem ⊢
      all_goals
        simp only [] at hmem
      all_goals
        exact setCurrentJobs_mem _ _ _ _ hmem hid
  · intro reason cby hok wid hwid w' hmem hid
    rcases hfind : findBooking st bid with _ | b <;>
      simp only [cancelBooking, hfind] at hok
    · exact absurd (congrArg Prod.snd hok) (by simp)
    · split_ifs at hok
      all_goals
        first
        | exact Except.noConfusion (congrArg Prod.snd hok)
        | (rw [Prod.mk.injEq] at hok;
           obtain ⟨hst, hb⟩ := hok;
           injection hb with hb;
           subst hb;
           subst hst;
           simp only [] at hwid;
           rw [hwid] at hmem;
           simp only [] at hmem;
           exact setCurrentJobs_mem _ _ _ _ hmem hid)

/-- Witness for C3 amended: after the concrete auto-assign, worker 1
stores `current_jobs = 1`, the `{assigned, in_progress}` count over the
updated bookings. -/
theorem claim_C3_current_jobs_amended_witness :
    ({ id := 1, role := "employee", is_available := true, id_verified := true,
       skills_verified := true, background_check_status := "approved",
       approval_status := "approved", skills := [], location := "",
       rating := 0, experience_years := 0, max_capacity := 5,
       current_jobs := 1 } : Worker).current_jobs =
      countByStatus
        [{ id := 0, service_id := 7, employee_id := some 1, status := "accepted",
           booking_date := none, booking_time := none, customer_pincode := "",
           total_price := 100, payment_status := "pending",
           payment_method := "cod", assigned_at := none, accepted_at := some 1,
           reached_at := none, started_at := none, completed_at := none,
           cancelled_at := none, cancellation_reason := none, cancelled_by := none },
         { id := 1, service_id := 7, employee_id := some 1, status := "assigned",
           booking_date := none, booking_time := none, customer_pincode := "",
           total_price := 200, payment_status := "pending",
           payment_method := "cod", assigned_at := some 5, accepted_at := none,
           reached_at := none, started_at := none, completed_at := none,
           cancelled_at := none, cancellation_reason := none, cancelled_by := none }]
        1 activeTwo :=
  (claim_C3_current_jobs_amended 5
    { bookings := [{ id := 0, service_id := 7, employee_id := some 1, status := "accepted",
                     booking_date := none, booking_time := none, customer_pincode := "",
                     total_price := 100, payment_status := "pending",
                     payment_method := "cod", assigned_at := none, accepted_at := some 1,
                     reached_at := none, started_at := none, completed_at := none,
                     cancelled_at := none, cancellation_reason := none,
                     cancelled_by := none },
                   { id := 1, service_id := 7, employee_id := none, status := "pending",
                     booking_date := none, booking_time := none, customer_pincode := "",
                     total_price := 200, payment_status := "pending",
                     payment_method := "cod", assigned_at := none, accepted_at := none,
                     reached_at := none, started_at := none, completed_at := none,
                     cancelled_at := none, cancellation_reason := none,
                     cancelled_by := none }],
      workers := [{ id := 1, role := "employee", is_available := true, id_verified := true,
                    skills_verified := true, background_check_status := "approved",
                    approval_status := "approved", skills := [], location := "",
                    rating := 0, experience_years := 0, max_capacity := 5,
                    current_jobs := 0 }],
      slot := none }
    { bookings := [{ id := 0, service_id := 7, employee_id := some 1, status := "accepted",
                     booking_date := none, booking_time := none, customer_pincode := "",
                     total_price := 100, payment_status := "pending",
                     payment_method := "cod", assigned_at := none, accepted_at := some 1,
                     reached_at := none, started_at := none, completed_at := none,
                     cancelled_at := none, cancellation_reason := none,
                     cancelled_by := none },
                   { id := 1, service_id := 7, employee_id := some 1, status := "assigned",
                     booking_date := none, booking_time := none, customer_pincode := "",
                     total_price := 200, payment_status := "pending",
                     payment_method := "cod", assigned_at := some 5, accepted_at := none,
                     reached_at := none, started_at := none, completed_at := none,
                     cancelled_at := none, cancellation_reason := none,
                     cancelled_by := none }],
      workers := [{ id := 1, role := "employee", is_available := true, id_verified := true,
                    skills_verified := true, background_check_status := "approved",
                    approval_status := "approved", skills := [], location := "",
                    rating := 0, experience_years := 0, max_capacity := 5,
                    current_jobs := 1 }],
      slot := none }
    1
    { id := 1, service_id := 7, employee_id := some 1, status := "assigned",
      booking_date := none, booking_time := none, customer_pincode := "",
      total_price := 200, payment_status := "pending",
      payment_method := "cod", assigned_at := some 5, accepted_at := none,
      reached_at := none, started_at := none, completed_at := none,
      cancelled_at := none, cancellation_reason := none, cancelled_by := none }).1
    (by decide) 1 rfl
    { id := 1, role := "employee", is_available := true, id_verified := true,
      skills_verified := true, background_check_status := "approved",
      approval_status := "approved", skills := [], location := "",
      rating := 0, experience_years := 0, max_capacity := 5, current_jobs := 1 }
    (by decide) rfl

theorem pickFirstMax_ne_none (x : Worker × Int) (xs : List (Worker × Int)) :
    pickFirstMax (x :: xs) ≠ none := by
  simp only [pickFirstMax]
  cases pickFirstMax xs with
  | none => simp
  | some y =>
      dsimp only
      split_ifs <;> simp

/-- The head of the stable descending insertion sort is the first
maximum of the input. -/
theorem sortByPriorityDesc_head (l : List (Worker × Int)) :
    (sortByPriorityDesc l).head? = pickFirstMax l := by
  induction l with
  | nil => rfl
  | cons x xs ih =>
      cases hs : sortByPriorityDesc xs with
      | nil =>
          have hpick : pickFirstMax xs = none := by rw [← ih, hs]; rfl
          simp [sortByPriorityDesc, pickFirstMax, hs, hpick, insertByPriorityDesc]
      | cons y ys =>
          have hpick : pickFirstMax xs = some y := by rw [← ih, hs]; rfl
          by_cases hxy : x.2 ≥ y.2
          · simp [sortByPriorityDesc, pickFirstMax, hs, hpick, insertByPriorityDesc, hxy,
              show ¬ y.2 > x.2 by omega]
          · simp [sortByPriorityDesc, pickFirstMax, hs, hpick, insertByPriorityDesc, hxy,
              show y.2 > x.2 by omega]

theorem pickFirstMax_mem (l : List (Worker × Int)) :
    ∀ p : Worker × Int, pickFirstMax l = some p → p ∈ l := by
  induction l with
  | nil => intro p h; simp [pickFirstMax] at h
  | cons x xs ih =>
      intro p h
      simp only [pickFirstMax] at h
      cases hp : pickFirstMax xs with
      | none =>
          rw [hp] at h
          simp at h
          subst h
          exact List.mem_cons_self x xs
      | some y =>
          rw [hp] at h
          dsimp only at h
          split_ifs at h with hxy
          · simp at h
            subst h
            exact List.mem_cons_of_mem x (ih y hp)
          · simp at h
            subst h
            exact List.mem_cons_self x xs

theorem pickFirstMax_le (l : List (Worker × Int)) :
    ∀ p : Worker × Int, pickFirstMax l = some p → ∀ q ∈ l, q.2 ≤ p.2 := by
  induction l with
  | nil => intro p h; simp [pickFirstMax] at h
  | cons x xs ih =>
      intro p h q hq
      simp only [pickFirstMax] at h
      cases hp : pickFirstMax xs with
      | none =>
          rw [hp] at h
          simp at h
          subst h
          cases xs with
          | nil =>
              simp at hq
              subst hq
              exact le_refl _
          | cons a as => exact absurd hp (pickFirstMax_ne_none a as)
      | some y =>
          rw [hp] at h
          dsimp only at h
          split_ifs at h with hxy
          · simp at h
            subst h
            rcases List.mem_cons.mp hq with hqx | hq'
            · subst hqx
              omega
            · exact ih y hp q hq'
          · simp at h
            subst h
            rcases List.mem_cons.mp hq with hqx | hq'
            · subst hqx
              exact le_refl _
            · have := ih y hp q hq'
              omega

theorem pickFirstMax_first (l : List (Worker × Int)) :
    ∀ p : Worker × Int, pickFirstMax l = some p →
      ∃ i, i < l.length ∧ l[i]? = some p ∧
        ∀ j, j < i → ∀ z : Worker × Int, l[j]? = some z → z.2 < p.2 := by
  induction l with
  | nil => intro p h; simp [pickFirstMax] at h
  | cons x xs ih =>
      intro p h
      simp only [pickFirstMax] at h
      cases hp : pickFirstMax xs with
      | none =>
          rw [hp] at h
          simp at h
          subst h
          exact ⟨0, by simp, by simp, fun j hj z _ => absurd hj (Nat.not_lt_zero j)⟩
      | some y =>
          rw [hp] at h
          dsimp only at h
          split_ifs at h with hxy
          · simp at h
            subst h
            obtain ⟨i, hi, hget, hall⟩ := ih y hp
            refine ⟨i + 1, by simpa using hi, by simpa using hget, ?_⟩
            intro j hj z hz
            cases j with
            | zero =>
                simp at hz
                subst hz
                exact hxy
            | succ k =>
                have hk : k < i := by omega
                have hz' : xs[k]? = some z := by simpa using hz
                exact hall k hk z hz'
          · simp at h
            subst h
            exact ⟨0, by simp, by simp, fun j hj z _ => absurd hj (Nat.not_lt_zero j)⟩

/-- C7: auto-assign fails with `already_assigned` when `employee_id` is
already set and with `no_eligible_workers` when the eligible set is
empty; otherwise it assigns the first worker (in input order) that
maximizes `100·[location match] + 10·rating + 5·experience_years +
2·(max_capacity - current_jobs)`, setting `employee_id`,
`status = 'assigned'` and `assigned_at`. -/
theorem claim_C7_auto_assign (now : Int) (st : SysState) (bid : Nat) (b : BDoc)
    (hfind : findBooking st bid = some b) :
    (b.employee_id.isSome → autoAssign now st bid = (st, .error .already_assigned)) ∧
    (b.employee_id = none → st.workers.filter (eligibleWorker b.service_id) = [] →
      autoAssign now st bid = (st, .error .no_eligible_workers)) ∧
    (b.employee_id = none →
      ∀ (w : Worker) (ws : List Worker),
        st.workers.filter (eligibleWorker b.service_id) = w :: ws →
        ∃ (st' : SysState) (best : Worker),
          autoAssign now st bid =
            (st', .ok { b with
                          employee_id := some best.id,
                          status := "assigned",
                          assigned_at := some now }) ∧
          best ∈ w :: ws ∧
          (∀ y ∈ w :: ws,
            priorityScore b.customer_pincode y ≤ priorityScore b.customer_pincode best) ∧
          ∃ i, i < (w :: ws).length ∧ (w :: ws)[i]? = some best ∧
            ∀ j, j < i → ∀ z : Worker, (w :: ws)[j]? = some z →
              priorityScore b.customer_pincode z < priorityScore b.customer_pincode best) := by
  refine ⟨?_, ?_, ?_⟩
  · intro hemp
    simp [autoAssign, hfind, hemp]
  · intro hemp hfilter
    simp [autoAssign, hfind, hemp, hfilter]
  · intro hemp w ws hfilter
    have hempF : b.employee_id.isSome = false := by simp [hemp]
    simp only [autoAssign, hfind, hempF, Bool.false_eq_true, if_false]
    rw [hfilter]
    simp only [List.isEmpty_cons, Bool.false_eq_true, if_false]
    rcases hsort : sortByPriorityDesc
        ((w :: ws).map fun w => (w, priorityScore b.customer_pincode w)) with _ | ⟨best, rest⟩
    · have hhead := sortByPriorityDesc_head
        ((w :: ws).map fun w => (w, priorityScore b.customer_pincode w))
      rw [hsort] at hhead
      simp only [List.map_cons] at hhead
      exact absurd hhead.symm
        (pickFirstMax_ne_none _ (ws.map fun w => (w, priorityScore b.customer_pincode w)))
    · have hpick : pickFirstMax
          ((w :: ws).map fun w => (w, priorityScore b.customer_pincode w)) = some best := by
        rw [← sortByPriorityDesc_head, hsort]
        rfl
      obtain ⟨bw, hbwmem, hbwf⟩ := List.mem_map.mp (pickFirstMax_mem _ best hpick)
      have h1 : best.1 = bw := by rw [← hbwf]
      have h2 : best.2 = priorityScore b.customer_pincode bw := by rw [← hbwf]
      refine ⟨_, best.1, rfl, ?_, ?_, ?_⟩
      · rw [h1]
        exact hbwmem
      · intro y hy
        have hmy : (y, priorityScore b.customer_pincode y) ∈
            (w :: ws).map fun w => (w, priorityScore b.customer_pincode w) :=
          List.mem_map_of_mem _ hy
        have := pickFirstMax_le _ best hpick _ hmy
        simpa [h1, h2] using this
      · obtain ⟨i, hi, hget, hall⟩ := pickFirstMax_first _ best hpick
        refine ⟨i, by simpa using hi, ?_, ?_⟩
        · rw [List.getElem?_map] at hget
          rcases Option.map_eq_some'.mp hget with ⟨el, hel, hfe⟩
          have hbe : best.1 = el := by rw [← hfe]
          rw [hel, hbe]
        · intro j hj z hz
          have hmz : ((w :: ws).map fun w => (w, priorityScore b.customer_pincode w))[j]? =
              some (z, priorityScore b.customer_pincode z) := by
            rw [List.getElem?_map, hz]
            rfl
          have := hall j hj _ hmz
          simpa [h1, h2] using this

/-- Witness for C7: worker 2 (no location match, rating 5, score 60) is
listed before worker 1 (location match, rating 4, score 150); auto-assign
picks worker 1, the top-scored one. -/
theorem claim_C7_auto_assign_witness :
    (∃ (st' : SysState) (best : Worker),
      autoAssign 5
          { bookings := [{ id := 1, service_id := 7, employee_id := none, status := "pending",
                           booking_date := none, booking_time := none,
                           customer_pincode := "273001", total_price := 100,
                           payment_status := "pending", payment_method := "cod",
                           assigned_at := none, accepted_at := none, reached_at := none,
                           started_at := none, completed_at := none, cancelled_at := none,
                           cancellation_reason := none, cancelled_by := none }],
            workers := [{ id := 2, role := "employee", is_available := true,
                          id_verified := true, skills_verified := true,
                          background_check_status := "approved",
                          approval_status := "approved", skills := [],
                          location := "000000", rating := 5, experience_years := 0,
                          max_capacity := 5, current_jobs := 0 },
                        { id := 1, role := "employee", is_available := true,
                          id_verified := true, skills_verified := true,
                          background_check_status := "approved",
                          approval_status := "approved", skills := [],
                          location := "273001", rating := 4, experience_years := 0,
                          max_capacity := 5, current_jobs := 0 }],
            slot := none } 1 =
        (st', .ok { id := 1, service_id := 7, employee_id := some best.id,
                    status := "assigned", booking_date := none, booking_time := none,
                    customer_pincode := "273001", total_price := 100,
                    payment_status := "pending", payment_method := "cod",
                    assigned_at := some 5, accepted_at := none, reached_at := none,
                    started_at := none, completed_at := none, cancelled_at := none,
                    cancellation_reason := none, cancelled_by := none }) ∧
      best.id = 1) ∧
    ((autoAssign 5
        { bookings := [{ id := 1, service_id := 7, employee_id := none, status := "pending",
                         booking_date := none, booking_time := none,
                         customer_pincode := "273001", total_price := 100,
                         payment_status := "pending", payment_method := "cod",
                         assigned_at := none, accepted_at := none, reached_at := none,
                         started_at := none, completed_at := none, cancelled_at := none,
                         cancellation_reason := none, cancelled_by := none }],
          workers := [{ id := 2, role := "employee", is_available := true,
                        id_verified := true, skills_verified := true,
                        background_check_status := "approved",
                        approval_status := "approved", skills := [],
                        location := "000000", rating := 5, experience_years := 0,
                        max_capacity := 5, current_jobs := 0 },
                      { id := 1, role := "employee", is_available := true,
                        id_verified := true, skills_verified := true,
                        background_check_status := "approved",
                        approval_status := "approved", skills := [],
                        location := "273001", rating := 4, experience_years := 0,
                        max_capacity := 5, current_jobs := 0 }],
          slot := none } 1).1.bookings.map BDoc.employee_id = [some 1]) := by
  constructor
  · have h := (claim_C7_auto_assign 5
      { bookings := [{ id := 1, service_id := 7, employee_id := none, status := "pending",
                       booking_date := none, booking_time := none,
                       customer_pincode := "273001", total_price := 100,
                       payment_status := "pending", payment_method := "cod",
                       assigned_at := none, accepted_at := none, reached_at := none,
                       started_at := none, completed_at := none, cancelled_at := none,
                       cancellation_reason := none, cancelled_by := none }],
        workers := [{ id := 2, role := "employee", is_available := true,
                      id_verified := true, skills_verified := true,
                      background_check_status := "approved",
                      approval_status := "approved", skills := [],
                      location := "000000", rating := 5, experience_years := 0,
                      max_capacity := 5, current_jobs := 0 },
                    { id := 1, role := "employee", is_available := true,
                      id_verified := true, skills_verified := true,
                      background_check_status := "approved",
                      approval_status := "approved", skills := [],
                      location := "273001", rating := 4, experience_years := 0,
                      max_capacity := 5, current_jobs := 0 }],
        slot := none } 1
      { id := 1, service_id := 7, employee_id := none, status := "pending",
        booking_date := none, booking_time := none,
        customer_pincode := "273001", total_price := 100,
        payment_status := "pending", payment_method := "cod",
        assigned_at := none, accepted_at := none, reached_at := none,
        started_at := none, completed_at := none, cancelled_at := none,
        cancellation_reason := none, cancelled_by := none }
      (by decide)).2.2 rfl
      { id := 2, role := "employee", is_available := true,
        id_verified := true, skills_verified := true,
        background_check_status := "approved",
        approval_status := "approved", skills := [],
        location := "000000", rating := 5, experience_years := 0,
        max_capacity := 5, current_jobs := 0 }
      [{ id := 1, role := "employee", is_available := true,
         id_verified := true, skills_verified := true,
         background_check_status := "approved",
         approval_status := "approved", skills := [],
         location := "273001", rating := 4, experience_years := 0,
         max_capacity := 5, current_jobs := 0 }]
      (by decide)
    obtain ⟨st', best, heq, hmem, hmax, _⟩ := h
    refine ⟨st', best, heq, ?_⟩
    have hbid := hmax
      { id := 1, role := "employee", is_available := true,
        id_verified := true, skills_verified := true,
        background_check_status := "approved",
        approval_status := "approved", skills := [],
        location := "273001", rating := 4, experience_years := 0,
        max_capacity := 5, current_jobs := 0 }
      (by simp)
    rcases List.mem_cons.mp hmem with hm | hm
    · rw [hm] at hbid
      simp [priorityScore] at hbid
    · simp at hm
      rw [hm]
  · decide

end AceHome
